import Mathlib

/-!
Verification of the file-finder Tauri UI layer (src/file-finder/src/main.js).

The JavaScript in main.js is shallowly embedded below.  Asynchronous
backend invocations (invoke "get_index_status", invoke "start_indexing",
invoke "search_files") are modelled by passing their outcome for the call
in question as an explicit value: `Option Nat` for a status call that may
throw (none = the promise rejected), a `Bool` for whether start_indexing
succeeded, and a sum type for the search backend.  Mutable module-level
variables (lastReindexDate, currentResults, selectedIndex, searchOptions,
autoReindexEnabled, ...) become explicit state threaded through the
functions that read and write them.
-/

namespace FileFinder

/-- One search result row as the UI consumes it (`file.path`, `file.name`). -/
structure FileEntry where
  path : String
  name : String
deriving DecidableEq, Repr

/-! ### Scheduler (checkScheduledReindex, main.js lines 614-660)

The function reads the wall clock (`now.getHours()`, `now.toDateString()`),
the module variable `autoReindexEnabled`, and performs up to two backend
calls.  Those environmental inputs for a single call are gathered in
`SchedulerEnv`; the only piece of state the function mutates is the
module variable `lastReindexDate : Option String` (null = `none`). -/

/-- Environment of one `checkScheduledReindex` call: the enabled flag, the
local hour `now.getHours()`, the date string `now.toDateString()`, the
outcome of `invoke "get_index_status"` (`none` when the call throws,
`some totalFiles` otherwise), and whether `invoke "start_indexing"`
resolves (`true`) or rejects (`false`) if it is reached. -/
structure SchedulerEnv where
  autoReindexEnabled : Bool
  hour : Nat
  currentDate : String
  statusTotalFiles : Option Nat
  startIndexingOk : Bool
deriving DecidableEq, Repr

/-- Embedding of the nighttime-trigger block of `checkScheduledReindex`
(main.js lines 620-651): the `isNightTime && !alreadyReindexedToday`
branch, including the try/catch around the two backend calls.  Returns the
new `lastReindexDate` together with whether `invoke "start_indexing"` was
reached. -/
def scheduledReindexStep (env : SchedulerEnv) (lastReindexDate : Option String) :
    Option String × Bool :=
  let isNightTime : Bool := decide (2 ≤ env.hour) && decide (env.hour < 5)
  let alreadyReindexedToday : Bool := lastReindexDate == some env.currentDate
  if isNightTime && !alreadyReindexedToday then
    match env.statusTotalFiles with
    | none => (lastReindexDate, false)
    | some total =>
      if 0 < total then
        if env.startIndexingOk then (some env.currentDate, true)
        else (lastReindexDate, true)
      else (lastReindexDate, false)
  else (lastReindexDate, false)

/-- Shallow embedding of `checkScheduledReindex` (main.js lines 614-660):
the enabled guard, the nighttime-trigger block, then the past-6-AM flag
reset.  Output: the new `lastReindexDate` and whether `start_indexing`
was invoked during the call. -/
def checkScheduledReindex (env : SchedulerEnv) (lastReindexDate : Option String) :
    Option String × Bool :=
  if !env.autoReindexEnabled then
    (lastReindexDate, false)
  else
    let step := scheduledReindexStep env lastReindexDate
    if 6 ≤ env.hour then
      if step.1 = some env.currentDate then step else (none, step.2)
    else step

/-- Helper: whether the nighttime block invokes `start_indexing`, assuming
the status call reported `some n`. -/
theorem scheduledReindexStep_snd (env : SchedulerEnv) (last : Option String)
    (n : Nat) (hstatus : env.statusTotalFiles = some n) :
    (scheduledReindexStep env last).2 =
      (decide (2 ≤ env.hour) && decide (env.hour < 5) &&
        !(last == some env.currentDate) && decide (0 < n)) := by
  simp only [scheduledReindexStep, hstatus]
  cases hA : decide (2 ≤ env.hour) <;> cases hB : decide (env.hour < 5) <;>
    cases hC : (!(last == some env.currentDate)) <;>
    by_cases hn : 0 < n <;> cases hok : env.startIndexingOk <;>
    simp [hA, hB, hC, hn, hok]

/-- Helper: the hour-six reset wrapper never changes whether the call
invoked `start_indexing`. -/
theorem checkScheduledReindex_snd (env : SchedulerEnv) (last : Option String) :
    (checkScheduledReindex env last).2 =
      (env.autoReindexEnabled && (scheduledReindexStep env last).2) := by
  unfold checkScheduledReindex
  cases henv : env.autoReindexEnabled
  · simp
  · simp only [henv, Bool.not_true, Bool.false_eq_true, if_false, Bool.true_and]
    split
    · split <;> rfl
    · rfl

/-- Helper characterising exactly when `checkScheduledReindex` invokes
`start_indexing`, given that the status call reports `some n`. -/
theorem checkScheduledReindex_trigger_char (env : SchedulerEnv)
    (last : Option String) (n : Nat) (hstatus : env.statusTotalFiles = some n) :
    (checkScheduledReindex env last).2 = true ↔
      (env.autoReindexEnabled = true ∧ 2 ≤ env.hour ∧ env.hour < 5 ∧
        last ≠ some env.currentDate ∧ 0 < n) := by
  rw [checkScheduledReindex_snd, scheduledReindexStep_snd env last n hstatus]
  simp [and_assoc]

/-- Helper: a same-day check after today's date was recorded neither
triggers nor changes the recorded date. -/
theorem checkScheduledReindex_same_day (env : SchedulerEnv) (d : String)
    (hd : env.currentDate = d) :
    checkScheduledReindex env (some d) = (some d, false) := by
  subst hd
  have hstep : scheduledReindexStep env (some env.currentDate) =
      (some env.currentDate, false) := by
    unfold scheduledReindexStep
    simp
  unfold checkScheduledReindex
  rw [hstep]
  cases env.autoReindexEnabled <;> simp

/-- C1: For every call to checkScheduledReindex whose status call reports a
total file count, start_indexing is invoked if and only if auto-reindex is
enabled, the local hour lies in [2, 5), no reindex is recorded for the
current date, and the reported catalog is non-empty. -/
theorem scheduledReindex_trigger_iff (env : SchedulerEnv)
    (last : Option String) (n : Nat) (hstatus : env.statusTotalFiles = some n) :
    (checkScheduledReindex env last).2 = true ↔
      (env.autoReindexEnabled = true ∧ 2 ≤ env.hour ∧ env.hour < 5 ∧
        last ≠ some env.currentDate ∧ 0 < n) :=
  checkScheduledReindex_trigger_char env last n hstatus

/-- Witness for C1: at 3 AM with auto-reindex on, nothing recorded today and
42 files indexed, the check invokes start_indexing. -/
theorem scheduledReindex_trigger_iff_witness :
    (checkScheduledReindex ⟨true, 3, "Mon Oct 12 2026", some 42, true⟩ none).2 = true :=
  (scheduledReindex_trigger_iff ⟨true, 3, "Mon Oct 12 2026", some 42, true⟩ none 42 rfl).2
    ⟨rfl, by decide, by decide, by simp, by decide⟩

/-- A sequence of periodic `checkScheduledReindex` calls (the
`setInterval(checkScheduledReindex, 60*60*1000)` loop), threading the
`lastReindexDate` variable through and counting how many of the calls
invoked `start_indexing`. -/
def runScheduledChecks (envs : List SchedulerEnv) (last : Option String) :
    Option String × Nat :=
  match envs with
  | [] => (last, 0)
  | e :: rest =>
    let step := checkScheduledReindex e last
    let restRun := runScheduledChecks rest step.1
    (restRun.1, (if step.2 then 1 else 0) + restRun.2)

/-- Helper: once today's date is recorded, any number of further checks on
the same date triggers nothing and keeps the recorded date. -/
theorem runScheduledChecks_same_day (d : String) (envs : List SchedulerEnv)
    (hall : ∀ e ∈ envs, e.currentDate = d) :
    runScheduledChecks envs (some d) = (some d, 0) := by
  induction envs with
  | nil => rfl
  | cons e rest ih =>
    have hd : e.currentDate = d := hall e (List.mem_cons_self e rest)
    have hrest : ∀ e' ∈ rest, e'.currentDate = d :=
      fun e' he' => hall e' (List.mem_cons_of_mem e he')
    simp only [runScheduledChecks, checkScheduledReindex_same_day e d hd,
      ih hrest]
    simp

/-- C2: After a reindex has been recorded for date d, no further check on
date d invokes start_indexing (however many checks run, the count of
triggers is 0 and the recorded date stays d); and the first check on a
different date d-prime within the nighttime window, with auto-reindex
enabled and a non-empty catalog, triggers again with no manual reset. -/
theorem scheduler_idempotent_per_day_and_rearms (d : String)
    (envs : List SchedulerEnv) (hall : ∀ e ∈ envs, e.currentDate = d)
    (env' : SchedulerEnv) (n : Nat)
    (h1 : env'.autoReindexEnabled = true) (h2 : 2 ≤ env'.hour)
    (h3 : env'.hour < 5) (h4 : env'.currentDate ≠ d)
    (h5 : env'.statusTotalFiles = some n) (h6 : 0 < n) :
    (runScheduledChecks envs (some d)).2 = 0 ∧
      (runScheduledChecks envs (some d)).1 = some d ∧
      (checkScheduledReindex env' (runScheduledChecks envs (some d)).1).2 =
        true := by
  have hrun := runScheduledChecks_same_day d envs hall
  refine ⟨by rw [hrun], by rw [hrun], ?_⟩
  rw [hrun]
  exact (checkScheduledReindex_trigger_char env' (some d) n h5).2
    ⟨h1, h2, h3, fun hcontra => h4 (Option.some_inj.mp hcontra).symm, h6⟩

/-- Witness for C2: after the 03:00 reindex of Mon Oct 12 is recorded, a
03:30 check the same day triggers nothing, and a 03:00 check on Tue Oct 13
triggers again. -/
theorem scheduler_idempotent_per_day_and_rearms_witness :
    (runScheduledChecks [⟨true, 3, "Mon Oct 12 2026", some 42, true⟩]
        (some "Mon Oct 12 2026")).2 = 0 ∧
      (runScheduledChecks [⟨true, 3, "Mon Oct 12 2026", some 42, true⟩]
        (some "Mon Oct 12 2026")).1 = some "Mon Oct 12 2026" ∧
      (checkScheduledReindex ⟨true, 3, "Tue Oct 13 2026", some 42, true⟩
        (runScheduledChecks [⟨true, 3, "Mon Oct 12 2026", some 42, true⟩]
          (some "Mon Oct 12 2026")).1).2 = true :=
  scheduler_idempotent_per_day_and_rearms "Mon Oct 12 2026"
    [⟨true, 3, "Mon Oct 12 2026", some 42, true⟩]
    (by intro e he; rw [List.mem_singleton] at he; rw [he])
    ⟨true, 3, "Tue Oct 13 2026", some 42, true⟩ 42
    rfl (by decide) (by decide) (by decide) rfl (by decide)

/-- C6: Under the trigger conditions (enabled, nighttime hour, nothing
recorded today, non-empty catalog), the check invokes start_indexing, and
it records today's date exactly when that invocation succeeds: on success
lastReindexDate becomes the current date, on failure it is left
unchanged. -/
theorem scheduler_records_date_only_on_success (env : SchedulerEnv)
    (last : Option String) (n : Nat)
    (hen : env.autoReindexEnabled = true) (h2 : 2 ≤ env.hour)
    (h5 : env.hour < 5) (hnot : last ≠ some env.currentDate)
    (hst : env.statusTotalFiles = some n) (hn : 0 < n) :
    (checkScheduledReindex env last).2 = true ∧
      (env.startIndexingOk = true →
        (checkScheduledReindex env last).1 = some env.currentDate) ∧
      (env.startIndexingOk = false →
        (checkScheduledReindex env last).1 = last) := by
  have h6 : ¬ 6 ≤ env.hour := by omega
  have hbeq : (last == some env.currentDate) = false := by
    cases hb : last == some env.currentDate
    · rfl
    · exact absurd (eq_of_beq hb) hnot
  have hstep : scheduledReindexStep env last =
      if env.startIndexingOk then (some env.currentDate, true)
      else (last, true) := by
    unfold scheduledReindexStep
    simp [hst, h2, h5, hbeq, hn]
  have hwrap : checkScheduledReindex env last = scheduledReindexStep env last := by
    unfold checkScheduledReindex
    simp [hen, h6]
  cases hok : env.startIndexingOk <;> simp [hwrap, hstep, hok]

/-- Witness for C6: at 3 AM with 42 files and nothing recorded, a failing
start_indexing leaves lastReindexDate untouched while a succeeding one
records the date. -/
theorem scheduler_records_date_only_on_success_witness :
    (checkScheduledReindex ⟨true, 3, "Mon Oct 12 2026", some 42, false⟩
        none).1 = none ∧
      (checkScheduledReindex ⟨true, 3, "Mon Oct 12 2026", some 42, true⟩
        none).1 = some "Mon Oct 12 2026" :=
  ⟨(scheduler_records_date_only_on_success
      ⟨true, 3, "Mon Oct 12 2026", some 42, false⟩ none 42
      rfl (by decide) (by decide) (by simp) rfl (by decide)).2.2 rfl,
    (scheduler_records_date_only_on_success
      ⟨true, 3, "Mon Oct 12 2026", some 42, true⟩ none 42
      rfl (by decide) (by decide) (by simp) rfl (by decide)).2.1 rfl⟩

/-! ### Search options and performSearch (main.js lines 18-23 and 198-223) -/

/-- The module-level `searchOptions` object (main.js lines 18-23).  Its
fields are exactly the properties of the JS object literal; the object is
passed whole as the `options` member of every `search_files` request. -/
structure SearchOptions where
  search_folders : Bool
  enable_fuzzy : Bool
  strict_mode : Bool
  filename_only : Bool
deriving DecidableEq, Repr

/-- Initial value of `searchOptions` (main.js lines 18-23). -/
def searchOptionsInit : SearchOptions :=
  { search_folders := true
    enable_fuzzy := true
    strict_mode := false
    filename_only := false }

/-- The option fields of a `search_files` request payload, in the order the
JS object literal declares them, as name/value pairs (every value is a
boolean). -/
def SearchOptions.sentFields (o : SearchOptions) : List (String × Bool) :=
  [("search_folders", o.search_folders),
   ("enable_fuzzy", o.enable_fuzzy),
   ("strict_mode", o.strict_mode),
   ("filename_only", o.filename_only)]

/-- Embedding of JavaScript `String.prototype.trim()` as used on the
search input value: strip leading and trailing whitespace. -/
def jsTrim (s : String) : String :=
  ⟨((s.data.dropWhile Char.isWhitespace).reverse.dropWhile
      Char.isWhitespace).reverse⟩

/-- The mutable UI result state: module variables `currentResults` and
`selectedIndex`. -/
structure UIState where
  currentResults : List FileEntry
  selectedIndex : Int
deriving DecidableEq, Repr

/-- Outcome of the awaited `invoke "search_files"` call: the resolved
result list, or the rejection message handled by the catch block. -/
inductive SearchBackend where
  | resolved (results : List FileEntry)
  | rejected (msg : String)
deriving DecidableEq, Repr

/-- What one `performSearch` call did: the updated state, whether
`invoke "search_files"` was called, and the list last passed to
`renderSearchResults` (the empty-state markup is rendered exactly when
that list is empty). -/
structure PerformSearchOutcome where
  state : UIState
  invokedSearchFiles : Bool
  rendered : List FileEntry
deriving DecidableEq, Repr

/-- Shallow embedding of `performSearch(query)` (main.js lines 198-223).
The code branches on JS truthiness of the (already trimmed) query string:
nonempty → invoke `search_files`, then `currentResults = results;
selectedIndex = 0; renderSearchResults(results)`; on rejection the catch
block renders `[]` without touching `currentResults`; empty →
`currentResults = []; renderSearchResults([])` with no backend call. -/
def performSearch (query : String) (backend : SearchBackend) (st : UIState) :
    PerformSearchOutcome :=
  if query ≠ "" then
    match backend with
    | .resolved results =>
      { state := { currentResults := results, selectedIndex := 0 }
        invokedSearchFiles := true
        rendered := results }
    | .rejected _ =>
      { state := st
        invokedSearchFiles := true
        rendered := [] }
  else
    { state := { currentResults := [], selectedIndex := st.selectedIndex }
      invokedSearchFiles := false
      rendered := [] }

/-- C4 counterexample: the options object sent with a `search_files`
request has no `applications_only` member — it carries four fields, not
five, so the claim as stated fails already for the initial options. -/
theorem searchRequest_no_applications_only :
    ("applications_only" ∉
        (searchOptionsInit.sentFields.map Prod.fst)) ∧
      (searchOptionsInit.sentFields.map Prod.fst).length = 4 := by
  decide

/-- C4 (amended): every `search_files` request carries exactly the four
exposed option fields search_folders, enable_fuzzy, strict_mode and
filename_only, in that order, each a boolean. -/
theorem searchRequest_option_fields (o : SearchOptions) :
    o.sentFields.map Prod.fst =
      ["search_folders", "enable_fuzzy", "strict_mode", "filename_only"] :=
  rfl

/-- C5: A query that is empty after trimming yields an empty result set and
no `search_files` call: `currentResults` becomes empty, the empty state is
rendered, and the backend is not invoked. -/
theorem performSearch_empty_query (query : String) (backend : SearchBackend)
    (st : UIState) (hq : jsTrim query = "") :
    (performSearch (jsTrim query) backend st).invokedSearchFiles = false ∧
      (performSearch (jsTrim query) backend st).state.currentResults = [] ∧
      (performSearch (jsTrim query) backend st).rendered = [] := by
  rw [hq]
  unfold performSearch
  simp

/-- Witness for C5: a whitespace-only input trims to empty and produces no
backend call and no results. -/
theorem performSearch_empty_query_witness :
    (performSearch (jsTrim "   ") (SearchBackend.resolved [⟨"/a", "a"⟩])
        ⟨[⟨"/b", "b"⟩], 3⟩).invokedSearchFiles = false ∧
      (performSearch (jsTrim "   ") (SearchBackend.resolved [⟨"/a", "a"⟩])
        ⟨[⟨"/b", "b"⟩], 3⟩).state.currentResults = [] ∧
      (performSearch (jsTrim "   ") (SearchBackend.resolved [⟨"/a", "a"⟩])
        ⟨[⟨"/b", "b"⟩], 3⟩).rendered = [] :=
  performSearch_empty_query "   " (SearchBackend.resolved [⟨"/a", "a"⟩])
    ⟨[⟨"/b", "b"⟩], 3⟩ (by decide)

/-- C10: Every successful search with a non-empty query sets
`currentResults` to the returned list and resets `selectedIndex` to 0,
whatever the previous selection was. -/
theorem performSearch_success_resets_selection (query : String)
    (results : List FileEntry) (st : UIState) (hq : query ≠ "") :
    (performSearch query (SearchBackend.resolved results) st).state =
      { currentResults := results, selectedIndex := 0 } := by
  unfold performSearch
  rw [if_pos hq]

/-- Witness for C10: a successful search for a nonempty query from a state
selected at index 7 lands on the returned list with selection 0. -/
theorem performSearch_success_resets_selection_witness :
    (performSearch "readme" (SearchBackend.resolved [⟨"/r", "readme.md"⟩])
        ⟨[⟨"/b", "b"⟩], 7⟩).state =
      { currentResults := [⟨"/r", "readme.md"⟩], selectedIndex := 0 } :=
  performSearch_success_resets_selection "readme" [⟨"/r", "readme.md"⟩]
    ⟨[⟨"/b", "b"⟩], 7⟩ (by decide)

/-! ### In-flight search responses (main.js lines 198-223)

The code keeps no query identity at all.  `performSearch` awaits
`invoke "search_files"` and its continuation (`currentResults = results;
selectedIndex = 0; renderSearchResults(results)`) runs when the response
arrives, with no comparison against any later-issued query: there is no
sequence number, version stamp, or "currently active search" variable in
main.js.  The single-threaded event loop is modelled as a sequence of
events: issuing a search (the code before the await) and the arrival of a
response (the code after the await). -/

/-- One event-loop step of the search path: `issue id query` is a
`performSearch` call for a nonempty query reaching the await, tagged with
an id for bookkeeping in statements (the code itself carries no such id);
`arrive id results` is the continuation after the await for that call. -/
inductive SearchEvent where
  | issue (id : Nat) (query : String)
  | arrive (id : Nat) (results : List FileEntry)
deriving DecidableEq, Repr

/-- Effect of one search event on the UI state, per main.js lines 200-212:
issuing only renders the spinner (no result-state change); an arriving
response is applied unconditionally. -/
def applySearchEvent (st : UIState) : SearchEvent → UIState
  | .issue _ _ => st
  | .arrive _ results => { currentResults := results, selectedIndex := 0 }

/-- Run a sequence of search events through the event loop. -/
def runSearchEvents (st : UIState) : List SearchEvent → UIState
  | [] => st
  | e :: rest => runSearchEvents (applySearchEvent st e) rest

/-- C3 counterexample: query 1 is issued, then query 2; query 2's response
arrives first and is applied; query 1's stale response arrives last and
overwrites it, so the older response does become the current result set,
contradicting the claimed discard of stale responses. -/
theorem stale_response_becomes_current :
    (runSearchEvents ⟨[], 0⟩
        [SearchEvent.issue 1 "re", SearchEvent.issue 2 "rea",
          SearchEvent.arrive 2 [⟨"/new", "readme-new"⟩],
          SearchEvent.arrive 1 [⟨"/old", "re-old"⟩]]).currentResults =
      [⟨"/old", "re-old"⟩] ∧
      ([⟨"/old", "re-old"⟩] : List FileEntry) ≠ [⟨"/new", "readme-new"⟩] := by
  constructor
  · rfl
  · decide

/-- Helper: running events split at the last one. -/
theorem runSearchEvents_append (st : UIState) (evs : List SearchEvent)
    (e : SearchEvent) :
    runSearchEvents st (evs ++ [e]) =
      applySearchEvent (runSearchEvents st evs) e := by
  induction evs generalizing st with
  | nil => rfl
  | cons e' rest ih => exact ih (applySearchEvent st e')

/-- C3 (amended): the UI applies every arriving response unconditionally —
after any interleaving of issue/arrive events, the response that arrives
last determines `currentResults` (and resets the selection), regardless of
whether its query was superseded by a newer one; the code performs no
sequence-number comparison and discards nothing. -/
theorem last_arrival_wins (st : UIState) (evs : List SearchEvent) (id : Nat)
    (results : List FileEntry) :
    runSearchEvents st (evs ++ [SearchEvent.arrive id results]) =
      { currentResults := results, selectedIndex := 0 } := by
  rw [runSearchEvents_append]
  rfl

/-! ### Debounced dispatch (handleSearch, main.js lines 176-195)

`handleSearch` runs on every input event: it clears the pending timer and
schedules `performSearch(searchInput.value.trim())` 50 ms later.  A list
of input events `(time, inputValue)` in strictly increasing time order is
reduced to the list of queries actually dispatched: an event's timer
survives (and fires, reading the input value unchanged since that event)
exactly when no further input event occurs within the 50 ms interval. -/

/-- The debounce interval of `handleSearch` (main.js line 194). -/
def debounceMs : Nat := 50

/-- Queries dispatched to `performSearch` by a time-ordered sequence of
input events, under clearTimeout/setTimeout semantics: each event cancels
the previously scheduled dispatch; a scheduled dispatch fires iff no later
event arrives within `debounceMs`, and it reads the trimmed input value as
it stands at fire time. -/
def dispatchedQueries : List (Nat × String) → List String
  | [] => []
  | [e] => [jsTrim e.2]
  | e₁ :: e₂ :: rest =>
    if e₂.1 < e₁.1 + debounceMs then dispatchedQueries (e₂ :: rest)
    else jsTrim e₁.2 :: dispatchedQueries (e₂ :: rest)

/-- A burst: every input event follows its predecessor within the debounce
interval. -/
def isBurst : List (Nat × String) → Bool
  | [] => true
  | [_] => true
  | e₁ :: e₂ :: rest => decide (e₂.1 < e₁.1 + debounceMs) && isBurst (e₂ :: rest)

/-- C7: A nonempty burst of keystrokes arriving within the debounce
interval of each other dispatches exactly one search, for the trimmed
input value standing when the timer fires (the last value of the burst);
in particular at most one search reaches the engine. -/
theorem debounce_burst_single_dispatch (events : List (Nat × String))
    (hne : events ≠ []) (hburst : isBurst events = true) :
    dispatchedQueries events = [jsTrim (events.getLast hne).2] := by
  induction events with
  | nil => exact absurd rfl hne
  | cons e rest ih =>
    cases rest with
    | nil => rfl
    | cons e₂ rest' =>
      have hgap : e₂.1 < e.1 + debounceMs := by
        have := hburst
        simp only [isBurst, Bool.and_eq_true, decide_eq_true_eq] at this
        exact this.1
      have hburst' : isBurst (e₂ :: rest') = true := by
        simp only [isBurst, Bool.and_eq_true] at hburst
        exact hburst.2
      have hne' : e₂ :: rest' ≠ [] := by simp
      rw [show dispatchedQueries (e :: e₂ :: rest') =
            dispatchedQueries (e₂ :: rest') from if_pos hgap,
        ih hne' hburst']
      rw [List.getLast_cons hne']

/-- Witness for C7: three keystrokes 30 ms apart dispatch a single search
for the final trimmed value. -/
theorem debounce_burst_single_dispatch_witness :
    isBurst [(0, "r"), (30, "re "), (60, " rea ")] = true ∧
      dispatchedQueries [(0, "r"), (30, "re "), (60, " rea ")] =
        [jsTrim (([(0, "r"), (30, "re "), (60, " rea ")]).getLast
          (by decide)).2] :=
  ⟨by decide,
    debounce_burst_single_dispatch [(0, "r"), (30, "re "), (60, " rea ")]
      (by decide) (by decide)⟩

/-! ### Keyboard navigation (handleKeyboard, main.js lines 370-459) -/

/-- The fields of a DOM keyboard event that `handleKeyboard` reads. -/
structure KeyEvent where
  key : String
  ctrlKey : Bool
deriving DecidableEq, Repr

/-- The mutable module state `handleKeyboard` reads and writes:
`selectedIndex`, `currentResults`, the double-g tracking variables
`lastKey`/`lastKeyTime`, the search input value (written by Escape) and
`activeTab`. -/
structure NavState where
  selectedIndex : Int
  currentResults : List FileEntry
  lastKey : Option String
  lastKeyTime : Int
  searchValue : String
  activeTab : String
deriving DecidableEq, Repr

/-- Shallow embedding of `handleKeyboard(e)` (main.js lines 370-459).
`isTypingInSearch` is `document.activeElement === searchInput` and `now`
is `Date.now()` at the call.  The vim-key guard and the empty-results
guard return early; otherwise `lastKey`/`lastKeyTime` are updated and the
switch on `e.key` runs, with `Math.floor(10) = 10` as the half page. -/
def handleKeyboard (isTypingInSearch : Bool) (now : Int) (e : KeyEvent)
    (st : NavState) : NavState :=
  let isVimKey : Bool := ["j", "k", "g", "G"].contains e.key
  if isTypingInSearch && isVimKey && !e.ctrlKey then st
  else if st.currentResults.length == 0 then st
  else
    let isDoubleG : Bool :=
      (e.key == "g") && (st.lastKey == some "g") &&
        decide (now - st.lastKeyTime < 500)
    let st₁ := { st with lastKey := some e.key, lastKeyTime := now }
    let len : Int := st.currentResults.length
    if e.key == "ArrowDown" || e.key == "j" then
      { st₁ with selectedIndex := min (st₁.selectedIndex + 1) (len - 1) }
    else if e.key == "ArrowUp" || e.key == "k" then
      { st₁ with selectedIndex := max (st₁.selectedIndex - 1) 0 }
    else if e.key == "g" then
      if isDoubleG then { st₁ with selectedIndex := 0 } else st₁
    else if e.key == "G" then
      { st₁ with selectedIndex := len - 1 }
    else if e.key == "d" then
      if e.ctrlKey then
        { st₁ with selectedIndex := min (st₁.selectedIndex + 10) (len - 1) }
      else st₁
    else if e.key == "u" then
      if e.ctrlKey then
        { st₁ with selectedIndex := max (st₁.selectedIndex - 10) 0 }
      else st₁
    else if e.key == "Enter" then st₁
    else if e.key == "Escape" then
      if st₁.activeTab == "search" then
        { st₁ with searchValue := "", currentResults := [] }
      else { st₁ with searchValue := "" }
    else st₁

/-- C8: With non-empty results, every navigation key (ArrowDown/j,
ArrowUp/k, g (incl. gg), G, Ctrl+d, Ctrl+u) keeps the selection inside
[0, currentResults.length - 1] and leaves currentResults itself unchanged;
with empty results the handler changes nothing. -/
theorem handleKeyboard_selection_bounds (isTypingInSearch : Bool) (now : Int)
    (e : KeyEvent) (st : NavState) :
    (st.currentResults = [] → handleKeyboard isTypingInSearch now e st = st) ∧
      ((e.key = "ArrowDown" ∨ e.key = "j" ∨ e.key = "ArrowUp" ∨ e.key = "k" ∨
          e.key = "g" ∨ e.key = "G" ∨
          (e.ctrlKey = true ∧ (e.key = "d" ∨ e.key = "u"))) →
        st.currentResults ≠ [] →
        0 ≤ st.selectedIndex →
        st.selectedIndex ≤ (st.currentResults.length : Int) - 1 →
        ((handleKeyboard isTypingInSearch now e st).currentResults =
            st.currentResults ∧
          0 ≤ (handleKeyboard isTypingInSearch now e st).selectedIndex ∧
          (handleKeyboard isTypingInSearch now e st).selectedIndex ≤
            (st.currentResults.length : Int) - 1)) := by
  constructor
  · intro hempty
    simp [handleKeyboard, hempty]
  · obtain ⟨key, ctrl⟩ := e
    intro hkey hne h0 h1
    dsimp only at hkey
    have hlen : 0 < st.currentResults.length := List.length_pos.mpr hne
    have hlenb : (st.currentResults.length == 0) = false := by
      simp only [beq_eq_false_iff_ne]
      omega
    by_cases htyping :
      (isTypingInSearch && (["j", "k", "g", "G"].contains key) &&
        !ctrl) = true
    · have hid : handleKeyboard isTypingInSearch now ⟨key, ctrl⟩ st = st := by
        unfold handleKeyboard
        rw [if_pos htyping]
      rw [hid]
      exact ⟨rfl, h0, h1⟩
    · rw [Bool.not_eq_true] at htyping
      rcases hkey with h | h | h | h | h | h | ⟨hc, h | h⟩ <;> subst h <;>
        (try subst hc) <;>
        simp only [handleKeyboard, htyping, hlenb, Bool.false_eq_true,
          if_false] <;>
        simp <;>
        first
          | omega
          | (refine ⟨?_, ?_⟩ <;> omega)
          | (split <;> simp <;> omega)

/-- Witness for C8: on an empty result list a j-press changes nothing, and
on a two-element list with selection 1 a j-press keeps the selection
within [0, 1]. -/
theorem handleKeyboard_selection_bounds_witness :
    handleKeyboard false 0 ⟨"j", false⟩ ⟨0, [], none, 0, "", "search"⟩ =
        ⟨0, [], none, 0, "", "search"⟩ ∧
      (0 ≤ (handleKeyboard false 0 ⟨"j", false⟩
          ⟨1, [⟨"/a", "a"⟩, ⟨"/b", "b"⟩], none, 0, "", "search"⟩).selectedIndex ∧
        (handleKeyboard false 0 ⟨"j", false⟩
          ⟨1, [⟨"/a", "a"⟩, ⟨"/b", "b"⟩], none, 0, "", "search"⟩).selectedIndex ≤
          (([⟨"/a", "a"⟩, ⟨"/b", "b"⟩] : List FileEntry).length : Int) - 1) :=
  ⟨(handleKeyboard_selection_bounds false 0 ⟨"j", false⟩
      ⟨0, [], none, 0, "", "search"⟩).1 rfl,
    ((handleKeyboard_selection_bounds false 0 ⟨"j", false⟩
        ⟨1, [⟨"/a", "a"⟩, ⟨"/b", "b"⟩], none, 0, "", "search"⟩).2
      (Or.inr (Or.inl rfl)) (by decide) (by decide) (by decide)).2⟩

/-! ### Auto-reindex preference persistence (main.js lines 110-121) -/

/-- Browser localStorage, as a key-value map. -/
def LocalStorage : Type := String → Option String

/-- Embedding of `localStorage.setItem(key, value)`. -/
def setItem (s : LocalStorage) (key value : String) : LocalStorage :=
  fun k => if k = key then some value else s k

/-- Embedding of `localStorage.getItem(key)` (null = `none`). -/
def getItem (s : LocalStorage) (key : String) : Option String := s key

/-- The storage key the code uses for the preference. -/
def autoReindexKey : String := "autoReindexEnabled"

/-- JavaScript string coercion of a boolean: `setItem` receives the boolean
`autoReindexEnabled` and stores its string form. -/
def jsBoolString (b : Bool) : String := if b then "true" else "false"

/-- The auto-reindex checkbox change handler (main.js lines 110-114):
`localStorage.setItem('autoReindexEnabled', autoReindexEnabled)`. -/
def saveAutoReindexPreference (s : LocalStorage) (enabled : Bool) :
    LocalStorage :=
  setItem s autoReindexKey (jsBoolString enabled)

/-- The startup restore (main.js lines 117-121): if
`localStorage.getItem('autoReindexEnabled')` is not null the in-memory
flag becomes `saved === 'true'`; otherwise it keeps its current default. -/
def loadAutoReindexPreference (s : LocalStorage) (current : Bool) : Bool :=
  match getItem s autoReindexKey with
  | none => current
  | some saved => saved == "true"

/-- C9: Toggling the auto-reindex setting stores the boolean as the string
true/false under autoReindexEnabled, and the startup restore maps that
saved value back to exactly the stored boolean, so save-then-load is the
identity on the setting whatever the prior storage contents or in-memory
default. -/
theorem autoReindex_preference_roundtrip (s : LocalStorage)
    (enabled current : Bool) :
    getItem (saveAutoReindexPreference s enabled) autoReindexKey =
        some (jsBoolString enabled) ∧
      (jsBoolString enabled = "true" ∨ jsBoolString enabled = "false") ∧
      loadAutoReindexPreference (saveAutoReindexPreference s enabled)
          current = enabled := by
  cases enabled <;>
    simp [loadAutoReindexPreference, saveAutoReindexPreference, getItem,
      setItem, jsBoolString, autoReindexKey]

end FileFinder
